import Mathlib

/-!
Shallow embedding of the sm2335egh crate (src/lib.rs), a driver for the
SM2335EGH LED controller over a two-wire bit-banged clock/data interface.

Modelling conventions:
* u8 and u16 machine integers become `Nat`, with `% 256` inserted exactly
  where the Rust arithmetic can wrap (the `lvl << 4` in
  `set_rgb_power_level`).  All other operations in the source cannot
  overflow their types at smaller values than the explicit masks/mins
  already impose.
* The two `OutputPin` handles expose only set-high / set-low / set-state;
  the driver discards their `Result`s (`.ok()`), so a pin operation is
  just its effect on the pin's logic level.  We record the sequence of
  pin operations a call performs as a `List PinOp` trace, and the pin
  levels themselves as `Bool` fields of the driver state (`true` = high).
* `Msg([u8; 12])` becomes a structure holding a 12-element `List Nat`.
  `u16::to_be_bytes` of a value `v < 65536` is the two bytes
  `[v / 256, v % 256]`.
-/

namespace SM2335

/-- Address constants from the source, `0bDD0MMNNN` with `DD = 11`,
mode bits `MM`, offset `NNN = 000`. -/
def ADDR_STANDBY : Nat := 0b11000000

/-- Address byte for 3-channel (RGB) mode, `0b11_0_01_000`. -/
def ADDR_START_3CH : Nat := 0b11001000

/-- Address byte for 2-channel (CW) mode, `0b11_0_10_000`. -/
def ADDR_START_2CH : Nat := 0b11010000

/-- Address byte for 5-channel mode, `0b11_0_11_000`. -/
def ADDR_START_5CH : Nat := 0b11011000

/-- The chip's channel resolution: `pub const BIT_DEPTH: u8 = 10`. -/
def BIT_DEPTH : Nat := 10

/-- One operation on one of the two output pins: set the data line or the
clock line to a given logic level (`true` = high).  `set_high()` is
`.data true` resp. `.clk true`, `set_low()` is `.data false` resp.
`.clk false`, and `set_state(PinState::from(bit))` is `.data bit`. -/
inductive PinOp where
  | data (b : Bool)
  | clk (b : Bool)
deriving DecidableEq, Repr

/-- Driver state `Sm2335Egh { data, clk, rgb_power_level, cw_power_level }`.
The pin handles are represented by the logic level they currently drive. -/
structure Sm2335Egh where
  data : Bool
  clk : Bool
  rgb_power_level : Nat
  cw_power_level : Nat
deriving DecidableEq, Repr

/-- Effect of one pin operation on the driver's pin levels. -/
def applyOp (s : Sm2335Egh) : PinOp → Sm2335Egh
  | .data b => { s with data := b }
  | .clk b => { s with clk := b }

/-- Apply a trace of pin operations in order. -/
def runOps (s : Sm2335Egh) (ops : List PinOp) : Sm2335Egh :=
  ops.foldl applyOp s

/-- The command frame `struct Msg([u8; 12])`. -/
structure Msg where
  bytes : List Nat
deriving DecidableEq, Repr

/-- `Msg::zeroed`: a frame of twelve zero bytes. -/
def Msg.zeroed : Msg :=
  ⟨List.replicate 12 0⟩

/-- `Msg::set_addr`: `self.0[0] = addr`. -/
def Msg.set_addr (m : Msg) (addr : Nat) : Msg :=
  ⟨m.bytes.set 0 addr⟩

/-- `Msg::set_rgb_power_level`: `self.0[1] = (lvl << 4) | (self.0[1] & 0x0F)`.
The shift is performed on a `u8`, hence the `% 256`. -/
def Msg.set_rgb_power_level (m : Msg) (lvl : Nat) : Msg :=
  ⟨m.bytes.set 1 (((lvl <<< 4) % 256) ||| (m.bytes.getD 1 0 &&& 0x0F))⟩

/-- `Msg::set_cw_power_level`: `self.0[1] = (self.0[1] & 0xF0) | lvl & 0xF`. -/
def Msg.set_cw_power_level (m : Msg) (lvl : Nat) : Msg :=
  ⟨m.bytes.set 1 ((m.bytes.getD 1 0 &&& 0xF0) ||| (lvl &&& 0xF))⟩

/-- The clamp `val.min((1 << BIT_DEPTH) - 1)` applied to every channel
value before encoding. -/
def clampChannel (v : Nat) : Nat :=
  min v ((1 <<< BIT_DEPTH) - 1)

/-- One step of `Msg::set_channel_values`: write channel `i`'s clamped
value big-endian into bytes `2 + 2i` and `2 + 2i + 1`
(`to_be_bytes` of a `u16 < 1024` is `[v / 256, v % 256]`). -/
def Msg.set_channel_value (m : Msg) (i : Nat) (v : Nat) : Msg :=
  ⟨(m.bytes.set (2 + i * 2) (clampChannel v / 256)).set (2 + i * 2 + 1)
    (clampChannel v % 256)⟩

/-- `Msg::set_channel_values`: `for (i, &val) in vals.iter().enumerate()`,
writing each clamped value at its channel-indexed offset. -/
def Msg.set_channel_values (m : Msg) (vals : List Nat) : Msg :=
  vals.enum.foldl (fun acc p => acc.set_channel_value p.1 p.2) m

/-- `Sm2335Egh::init`: drive both pins high, default levels
`rgb_power_level = 0x2`, `cw_power_level = 0x4`. -/
def Sm2335Egh.init : Sm2335Egh :=
  { data := true, clk := true, rgb_power_level := 0x2, cw_power_level := 0x4 }

/-- The pin operations `init` performs: `data_pin.set_high(); clk_pin.set_high()`. -/
def initOps : List PinOp :=
  [.data true, .clk true]

/-- `Sm2335Egh::set_power_levels`: store both levels masked to 4 bits.
Touches no pins. -/
def Sm2335Egh.set_power_levels (s : Sm2335Egh) (rgb_level cw_level : Nat) : Sm2335Egh :=
  { s with rgb_power_level := rgb_level &&& 0xF, cw_power_level := cw_level &&& 0xF }

/-- The inner bit loop of `write_msg` for one byte, followed by the per-byte
trailer: `for i in (0..8).rev()` emit clock low, data = bit `i`, clock high;
then clock low, data high, clock high. -/
def byteOps (byte : Nat) : List PinOp :=
  (List.range 8).reverse.flatMap
      (fun i => [.clk false, .data (((byte >>> i) &&& 1) == 1), .clk true])
    ++ [.clk false, .data true, .clk true]

/-- The full pin-operation trace of `Sm2335Egh::write_msg`: data low
(start condition), the bit/trailer pulses of each frame byte in order,
then clock low, clock high, data high. -/
def msgOps (m : Msg) : List PinOp :=
  PinOp.data false ::
    (m.bytes.flatMap byteOps ++ [.clk false, .clk true, .data true])

/-- `Sm2335Egh::write_msg`: perform the trace `msgOps` on the pins.
Returns the new driver state together with the trace it performed. -/
def Sm2335Egh.write_msg (s : Sm2335Egh) (m : Msg) : Sm2335Egh × List PinOp :=
  (runOps s (msgOps m), msgOps m)

/-- The frame built by `Sm2335Egh::write` for channel values
`[v0, v1, v2, v3, v4]`: channel bytes first, then address and power-level
bytes chosen by the source's `match`, whose arms are tried in order
(first match wins): `[0,0,0,0,0]`, then `[_rgb @ .., 0, 0]`, then
`[0, 0, 0, _cw @ ..]`, then the catch-all. -/
def Sm2335Egh.buildMsg (s : Sm2335Egh) (v0 v1 v2 v3 v4 : Nat) : Msg :=
  let msg := Msg.zeroed.set_channel_values [v0, v1, v2, v3, v4]
  if v0 = 0 ∧ v1 = 0 ∧ v2 = 0 ∧ v3 = 0 ∧ v4 = 0 then
    msg.set_addr ADDR_STANDBY
  else if v3 = 0 ∧ v4 = 0 then
    (msg.set_addr ADDR_START_3CH).set_rgb_power_level s.rgb_power_level
  else if v0 = 0 ∧ v1 = 0 ∧ v2 = 0 then
    (msg.set_addr ADDR_START_2CH).set_cw_power_level s.cw_power_level
  else
    (((msg.set_addr ADDR_START_5CH).set_rgb_power_level
        s.rgb_power_level).set_cw_power_level s.cw_power_level)

/-- `Sm2335Egh::write`: build the frame, then transmit it with `write_msg`.
Returns the updated driver state and the frame that was sent. -/
def Sm2335Egh.write (s : Sm2335Egh) (v0 v1 v2 v3 v4 : Nat) : Sm2335Egh × Msg :=
  let msg := s.buildMsg v0 v1 v2 v3 v4
  ((s.write_msg msg).1, msg)

/-- The conversion inside `write_normalized`:
`(x * (1u16 << BIT_DEPTH) as f32) as u16`.  The f32 argument is modelled
by its exact rational value.  Multiplying a finite f32 by
`1024 = 2^10` is exact (it only shifts the exponent; for magnitudes large
enough to overflow to infinity the saturating cast yields 65535 either
way), and the Rust float-to-`u16` `as` cast saturates: negative values go
to 0, values at or above `2^16` go to 65535, and in between the value is
truncated toward zero. -/
def scaleChannel (x : ℚ) : Nat :=
  if x < 0 then 0
  else min 65535 (Int.toNat ⌊x * (((1 <<< BIT_DEPTH) : Nat) : ℚ)⌋)

/-- `Sm2335Egh::write_normalized`: scale each channel value and delegate
to `write`. -/
def Sm2335Egh.write_normalized (s : Sm2335Egh) (x0 x1 x2 x3 x4 : ℚ) :
    Sm2335Egh × Msg :=
  s.write (scaleChannel x0) (scaleChannel x1) (scaleChannel x2)
    (scaleChannel x3) (scaleChannel x4)

/-! ### Helper lemmas -/

/-- Filling the channel bytes of a zeroed frame yields this explicit
12-byte list: bytes 0 and 1 untouched, channel `i` big-endian at
`2 + 2i`. -/
lemma set_channel_values_five (w0 w1 w2 w3 w4 : Nat) :
    Msg.zeroed.set_channel_values [w0, w1, w2, w3, w4] =
      ⟨[0, 0, clampChannel w0 / 256, clampChannel w0 % 256,
        clampChannel w1 / 256, clampChannel w1 % 256,
        clampChannel w2 / 256, clampChannel w2 % 256,
        clampChannel w3 / 256, clampChannel w3 % 256,
        clampChannel w4 / 256, clampChannel w4 % 256]⟩ :=
  rfl

lemma clampChannel_eq (v : Nat) : clampChannel v = min v 1023 :=
  rfl

/-- Byte 1 after `set_rgb_power_level` on a frame whose byte 1 is 0:
the level lands in the high nibble. -/
lemma nibble_rgb : ∀ l < 16, ((l <<< 4) % 256 ||| (0 &&& 0x0F)) / 16 = l ∧
    ((l <<< 4) % 256 ||| (0 &&& 0x0F)) % 16 = 0 := by
  decide

/-- Byte 1 after `set_cw_power_level` on a frame whose byte 1 is 0:
the level lands in the low nibble. -/
lemma nibble_cw : ∀ l < 16, ((0 &&& 0xF0) ||| (l &&& 0xF)) % 16 = l ∧
    ((0 &&& 0xF0) ||| (l &&& 0xF)) / 16 = 0 := by
  decide

/-- Byte 1 after `set_rgb_power_level` then `set_cw_power_level` on a
frame whose byte 1 started as 0: both nibbles set. -/
lemma nibble_both : ∀ a < 16, ∀ b < 16,
    ((((a <<< 4) % 256 ||| (0 &&& 0x0F)) &&& 0xF0) ||| (b &&& 0xF)) / 16 = a ∧
    ((((a <<< 4) % 256 ||| (0 &&& 0x0F)) &&& 0xF0) ||| (b &&& 0xF)) % 16 = b := by
  decide

/-- Definitional restatement of `buildMsg` with the let-binding expanded,
to expose the source's branch structure to rewriting. -/
lemma buildMsg_def (s : Sm2335Egh) (v0 v1 v2 v3 v4 : Nat) :
    s.buildMsg v0 v1 v2 v3 v4 =
      if v0 = 0 ∧ v1 = 0 ∧ v2 = 0 ∧ v3 = 0 ∧ v4 = 0 then
        (Msg.zeroed.set_channel_values [v0, v1, v2, v3, v4]).set_addr ADDR_STANDBY
      else if v3 = 0 ∧ v4 = 0 then
        ((Msg.zeroed.set_channel_values [v0, v1, v2, v3, v4]).set_addr
          ADDR_START_3CH).set_rgb_power_level s.rgb_power_level
      else if v0 = 0 ∧ v1 = 0 ∧ v2 = 0 then
        ((Msg.zeroed.set_channel_values [v0, v1, v2, v3, v4]).set_addr
          ADDR_START_2CH).set_cw_power_level s.cw_power_level
      else
        (((Msg.zeroed.set_channel_values [v0, v1, v2, v3, v4]).set_addr
          ADDR_START_5CH).set_rgb_power_level
            s.rgb_power_level).set_cw_power_level s.cw_power_level :=
  rfl

/-- The frame component of `write` is the frame `buildMsg` builds. -/
lemma write_snd (s : Sm2335Egh) (v0 v1 v2 v3 v4 : Nat) :
    (s.write v0 v1 v2 v3 v4).2 = s.buildMsg v0 v1 v2 v3 v4 :=
  rfl

/-- Setting address and RGB power level on a frame whose first two bytes
are zero, in explicit byte-list form. -/
lemma bytes_3ch (lvl : Nat) (t : List Nat) :
    ((Msg.mk (0 :: 0 :: t)).set_addr ADDR_START_3CH).set_rgb_power_level lvl =
      Msg.mk (ADDR_START_3CH :: ((lvl <<< 4) % 256 ||| (0 &&& 0x0F)) :: t) :=
  rfl

/-- Setting address and CW power level on a frame whose first two bytes
are zero, in explicit byte-list form. -/
lemma bytes_2ch (lvl : Nat) (t : List Nat) :
    ((Msg.mk (0 :: 0 :: t)).set_addr ADDR_START_2CH).set_cw_power_level lvl =
      Msg.mk (ADDR_START_2CH :: ((0 &&& 0xF0) ||| (lvl &&& 0xF)) :: t) :=
  rfl

/-- Setting address and both power levels on a frame whose first two
bytes are zero, in explicit byte-list form. -/
lemma bytes_5ch (a b : Nat) (t : List Nat) :
    (((Msg.mk (0 :: 0 :: t)).set_addr ADDR_START_5CH).set_rgb_power_level
        a).set_cw_power_level b =
      Msg.mk (ADDR_START_5CH ::
        ((((a <<< 4) % 256 ||| (0 &&& 0x0F)) &&& 0xF0) ||| (b &&& 0xF)) :: t) :=
  rfl

/-! ### C1: address byte and power-level byte selection -/

/-- C1: for every 5-tuple of channel values, `write` selects the address
byte and the power-level byte by the source's four-way classification,
first match wins: all-zero gives the standby address and power byte 0;
else trailing-two-zero gives the 3-channel address with the stored RGB
level in the high nibble and low nibble 0; else leading-three-zero gives
the 2-channel address with the stored CW level in the low nibble and high
nibble 0; otherwise the 5-channel address with both nibbles set from the
stored levels. -/
theorem write_mode_selection (s : Sm2335Egh) (v0 v1 v2 v3 v4 : Nat)
    (hr : s.rgb_power_level < 16) (hc : s.cw_power_level < 16) :
    ((v0 = 0 ∧ v1 = 0 ∧ v2 = 0 ∧ v3 = 0 ∧ v4 = 0 →
        (s.write v0 v1 v2 v3 v4).2.bytes.getD 0 0 = ADDR_STANDBY ∧
        (s.write v0 v1 v2 v3 v4).2.bytes.getD 1 0 = 0) ∧
      (¬(v0 = 0 ∧ v1 = 0 ∧ v2 = 0 ∧ v3 = 0 ∧ v4 = 0) → v3 = 0 ∧ v4 = 0 →
        (s.write v0 v1 v2 v3 v4).2.bytes.getD 0 0 = ADDR_START_3CH ∧
        (s.write v0 v1 v2 v3 v4).2.bytes.getD 1 0 / 16 = s.rgb_power_level ∧
        (s.write v0 v1 v2 v3 v4).2.bytes.getD 1 0 % 16 = 0) ∧
      (¬(v0 = 0 ∧ v1 = 0 ∧ v2 = 0 ∧ v3 = 0 ∧ v4 = 0) → ¬(v3 = 0 ∧ v4 = 0) →
          v0 = 0 ∧ v1 = 0 ∧ v2 = 0 →
        (s.write v0 v1 v2 v3 v4).2.bytes.getD 0 0 = ADDR_START_2CH ∧
        (s.write v0 v1 v2 v3 v4).2.bytes.getD 1 0 % 16 = s.cw_power_level ∧
        (s.write v0 v1 v2 v3 v4).2.bytes.getD 1 0 / 16 = 0) ∧
      (¬(v0 = 0 ∧ v1 = 0 ∧ v2 = 0 ∧ v3 = 0 ∧ v4 = 0) → ¬(v3 = 0 ∧ v4 = 0) →
          ¬(v0 = 0 ∧ v1 = 0 ∧ v2 = 0) →
        (s.write v0 v1 v2 v3 v4).2.bytes.getD 0 0 = ADDR_START_5CH ∧
        (s.write v0 v1 v2 v3 v4).2.bytes.getD 1 0 / 16 = s.rgb_power_level ∧
        (s.write v0 v1 v2 v3 v4).2.bytes.getD 1 0 % 16 = s.cw_power_level)) := by
  refine ⟨?_, ?_, ?_, ?_⟩
  · rintro ⟨rfl, rfl, rfl, rfl, rfl⟩
    exact ⟨rfl, rfl⟩
  · rintro h1 ⟨rfl, rfl⟩
    have e0 : (s.write v0 v1 v2 0 0).2 =
        ((Msg.zeroed.set_channel_values [v0, v1, v2, 0, 0]).set_addr
          ADDR_START_3CH).set_rgb_power_level s.rgb_power_level := by
      rw [write_snd, buildMsg_def, if_neg h1, if_pos ⟨rfl, rfl⟩]
    rw [e0, set_channel_values_five, bytes_3ch]
    exact ⟨rfl, (nibble_rgb _ hr).1, (nibble_rgb _ hr).2⟩
  · rintro h1 h2 ⟨rfl, rfl, rfl⟩
    have e0 : (s.write 0 0 0 v3 v4).2 =
        ((Msg.zeroed.set_channel_values [0, 0, 0, v3, v4]).set_addr
          ADDR_START_2CH).set_cw_power_level s.cw_power_level := by
      rw [write_snd, buildMsg_def, if_neg h1, if_neg h2, if_pos ⟨rfl, rfl, rfl⟩]
    rw [e0, set_channel_values_five, bytes_2ch]
    exact ⟨rfl, (nibble_cw _ hc).1, (nibble_cw _ hc).2⟩
  · intro h1 h2 h3
    have e0 : (s.write v0 v1 v2 v3 v4).2 =
        (((Msg.zeroed.set_channel_values [v0, v1, v2, v3, v4]).set_addr
          ADDR_START_5CH).set_rgb_power_level
            s.rgb_power_level).set_cw_power_level s.cw_power_level := by
      rw [write_snd, buildMsg_def, if_neg h1, if_neg h2, if_neg h3]
    rw [e0, set_channel_values_five, bytes_5ch]
    exact ⟨rfl, (nibble_both _ hr _ hc).1, (nibble_both _ hr _ hc).2⟩

/-- Witness for `write_mode_selection`: each of the four branches
evaluated on a concrete driver and concrete channel values. -/
theorem write_mode_selection_witness :
    ((Sm2335Egh.init.write 0 0 0 0 0).2.bytes.getD 0 0 = ADDR_STANDBY ∧
      (Sm2335Egh.init.write 0 0 0 0 0).2.bytes.getD 1 0 = 0) ∧
    ((Sm2335Egh.init.write 1 0 0 0 0).2.bytes.getD 0 0 = ADDR_START_3CH ∧
      (Sm2335Egh.init.write 1 0 0 0 0).2.bytes.getD 1 0 / 16 =
        Sm2335Egh.init.rgb_power_level ∧
      (Sm2335Egh.init.write 1 0 0 0 0).2.bytes.getD 1 0 % 16 = 0) ∧
    ((Sm2335Egh.init.write 0 0 0 5 0).2.bytes.getD 0 0 = ADDR_START_2CH ∧
      (Sm2335Egh.init.write 0 0 0 5 0).2.bytes.getD 1 0 % 16 =
        Sm2335Egh.init.cw_power_level ∧
      (Sm2335Egh.init.write 0 0 0 5 0).2.bytes.getD 1 0 / 16 = 0) ∧
    ((Sm2335Egh.init.write 1 0 0 5 0).2.bytes.getD 0 0 = ADDR_START_5CH ∧
      (Sm2335Egh.init.write 1 0 0 5 0).2.bytes.getD 1 0 / 16 =
        Sm2335Egh.init.rgb_power_level ∧
      (Sm2335Egh.init.write 1 0 0 5 0).2.bytes.getD 1 0 % 16 =
        Sm2335Egh.init.cw_power_level) := by
  refine ⟨?_, ?_, ?_, ?_⟩
  · exact (write_mode_selection Sm2335Egh.init 0 0 0 0 0 (by decide)
      (by decide)).1 ⟨rfl, rfl, rfl, rfl, rfl⟩
  · exact (write_mode_selection Sm2335Egh.init 1 0 0 0 0 (by decide)
      (by decide)).2.1 (by decide) ⟨rfl, rfl⟩
  · exact (write_mode_selection Sm2335Egh.init 0 0 0 5 0 (by decide)
      (by decide)).2.2.1 (by decide) (by decide) ⟨rfl, rfl, rfl⟩
  · exact (write_mode_selection Sm2335Egh.init 1 0 0 5 0 (by decide)
      (by decide)).2.2.2 (by decide) (by decide) (by decide)

/-! ### C2: shape of the transmitted pulse sequence -/

/-- The source's bit test `((byte >> i) & 1) == 1` agrees with `Nat.testBit`. -/
lemma bit_eq_testBit (b i : Nat) :
    (((b >>> i) &&& 1) == 1) = b.testBit i := by
  rw [Nat.and_one_is_mod, Nat.testBit_to_div_mod, Nat.shiftRight_eq_div_pow]
  rcases Nat.mod_two_eq_zero_or_one (b / 2 ^ i) with h | h <;> rw [h] <;> rfl

/-- The per-byte pulse group as the spec describes it: eight MSB-first bit
pulses (clock low, data to the bit value, clock high), then one trailer
pulse (clock low, data high, clock high).  Written from the spec for
comparison with `byteOps`, which is written from the source. -/
def specByteGroup (b : Nat) : List PinOp :=
  [7, 6, 5, 4, 3, 2, 1, 0].flatMap
      (fun i => [.clk false, .data (b.testBit i), .clk true])
    ++ [.clk false, .data true, .clk true]

/-- The whole transmission as the spec describes it: data low (start),
the pulse group of every byte in order, then clock low, clock high,
data high.  Written from the spec for comparison with `msgOps`. -/
def specTransmission (bytes : List Nat) : List PinOp :=
  PinOp.data false ::
    (bytes.flatMap specByteGroup ++ [.clk false, .clk true, .data true])

lemma byteOps_eq_spec : byteOps = specByteGroup := by
  funext b
  have h8 : (List.range 8).reverse = [7, 6, 5, 4, 3, 2, 1, 0] := rfl
  simp only [byteOps, specByteGroup, h8, bit_eq_testBit]

lemma msgOps_eq_spec (m : Msg) : msgOps m = specTransmission m.bytes := by
  rw [msgOps, specTransmission, byteOps_eq_spec]

lemma runOps_append (s : Sm2335Egh) (l1 l2 : List PinOp) :
    runOps s (l1 ++ l2) = runOps (runOps s l1) l2 :=
  List.foldl_append ..

/-- After transmitting any frame, both lines are left high, whatever their
levels were before. -/
lemma runOps_msgOps_high (s : Sm2335Egh) (m : Msg) :
    (runOps s (msgOps m)).data = true ∧ (runOps s (msgOps m)).clk = true := by
  rw [msgOps, show ∀ a l, runOps s (a :: l) = runOps (applyOp s a) l from
    fun a l => rfl, runOps_append]
  exact ⟨rfl, rfl⟩

/-- Every frame `buildMsg` builds has exactly 12 bytes. -/
lemma buildMsg_length (s : Sm2335Egh) (v0 v1 v2 v3 v4 : Nat) :
    (s.buildMsg v0 v1 v2 v3 v4).bytes.length = 12 := by
  rw [buildMsg_def, set_channel_values_five]
  split_ifs <;> rfl

/-- C2: the trace transmitted for any frame built by `write` is exactly:
data low (start condition); for each of the 12 frame bytes eight MSB-first
bit pulses (clock low, data to the bit, clock high) followed by one
trailer pulse (clock low, data high, clock high); then clock low, clock
high, data high.  Hence exactly 12 bytes are clocked, the first operation
drives data low, and after the final toggle both lines are high from any
starting level. -/
theorem write_transmission_shape (s : Sm2335Egh) (v0 v1 v2 v3 v4 : Nat) :
    (s.write_msg (s.buildMsg v0 v1 v2 v3 v4)).2 =
        specTransmission (s.buildMsg v0 v1 v2 v3 v4).bytes ∧
    (s.buildMsg v0 v1 v2 v3 v4).bytes.length = 12 ∧
    (s.write_msg (s.buildMsg v0 v1 v2 v3 v4)).2.head? = some (PinOp.data false) ∧
    ∀ t : Sm2335Egh,
      (runOps t (s.write_msg (s.buildMsg v0 v1 v2 v3 v4)).2).data = true ∧
      (runOps t (s.write_msg (s.buildMsg v0 v1 v2 v3 v4)).2).clk = true := by
  refine ⟨msgOps_eq_spec _, buildMsg_length s v0 v1 v2 v3 v4, rfl, fun t => ?_⟩
  exact runOps_msgOps_high t _

/-! ### C3: big-endian channel packing, independent of mode -/

/-- Setting the standby address on a frame whose first two bytes are
zero, in explicit byte-list form. -/
lemma bytes_standby (t : List Nat) :
    (Msg.mk (0 :: 0 :: t)).set_addr ADDR_STANDBY =
      Msg.mk (ADDR_STANDBY :: 0 :: t) :=
  rfl

lemma drop_two (a p : Nat) (t : List Nat) :
    (Msg.mk (a :: p :: t)).bytes.drop 2 = t :=
  rfl

/-- C3: for channel values all below 1024, bytes 2 through 11 of the
frame are the big-endian two-byte encodings of exactly those values in
input order (channel `i` at bytes `2 + 2i` and `2 + 2i + 1`), whichever
of the four modes is selected. -/
theorem write_channel_bytes (s : Sm2335Egh) (v0 v1 v2 v3 v4 : Nat)
    (h0 : v0 < 1024) (h1 : v1 < 1024) (h2 : v2 < 1024) (h3 : v3 < 1024)
    (h4 : v4 < 1024) :
    (s.write v0 v1 v2 v3 v4).2.bytes.drop 2 =
      [v0 / 256, v0 % 256, v1 / 256, v1 % 256, v2 / 256, v2 % 256,
       v3 / 256, v3 % 256, v4 / 256, v4 % 256] := by
  have hcl : ∀ v : Nat, v < 1024 → clampChannel v = v := by
    intro v hv
    rw [clampChannel_eq]
    omega
  rw [write_snd, buildMsg_def, set_channel_values_five]
  split_ifs
  · rw [bytes_standby, drop_two, hcl v0 h0, hcl v1 h1, hcl v2 h2, hcl v3 h3,
      hcl v4 h4]
  · rw [bytes_3ch, drop_two, hcl v0 h0, hcl v1 h1, hcl v2 h2, hcl v3 h3,
      hcl v4 h4]
  · rw [bytes_2ch, drop_two, hcl v0 h0, hcl v1 h1, hcl v2 h2, hcl v3 h3,
      hcl v4 h4]
  · rw [bytes_5ch, drop_two, hcl v0 h0, hcl v1 h1, hcl v2 h2, hcl v3 h3,
      hcl v4 h4]

/-- Witness for `write_channel_bytes` at the spec's example values. -/
theorem write_channel_bytes_witness :
    (Sm2335Egh.init.write 1023 0 800 0 0).2.bytes.drop 2 =
      [1023 / 256, 1023 % 256, 0 / 256, 0 % 256, 800 / 256, 800 % 256,
       0 / 256, 0 % 256, 0 / 256, 0 % 256] :=
  write_channel_bytes Sm2335Egh.init 1023 0 800 0 0 (by norm_num) (by norm_num)
    (by norm_num) (by norm_num) (by norm_num)

/-! ### C4: values at or above 1024 are clamped to 1023, never rejected -/

/-- C4: `write` behaves exactly as if every channel value were first
clamped with `clampChannel`, and `clampChannel` sends every value at or
above 1024 to 1023.  In particular inputs 2000 and 1024 produce the very
same result as input 1023, and no error path exists. -/
theorem write_clamps (s : Sm2335Egh) (v0 v1 v2 v3 v4 : Nat) :
    s.write v0 v1 v2 v3 v4 =
      s.write (clampChannel v0) (clampChannel v1) (clampChannel v2)
        (clampChannel v3) (clampChannel v4) ∧
    ∀ v : Nat, 1024 ≤ v → clampChannel v = 1023 := by
  have hz : ∀ v : Nat, clampChannel v = 0 ↔ v = 0 := by
    intro v
    rw [clampChannel_eq]
    omega
  have hid : ∀ v : Nat, clampChannel (clampChannel v) = clampChannel v := by
    intro v
    rw [clampChannel_eq, clampChannel_eq]
    omega
  have hvals :
      Msg.zeroed.set_channel_values
          [clampChannel v0, clampChannel v1, clampChannel v2, clampChannel v3,
            clampChannel v4] =
        Msg.zeroed.set_channel_values [v0, v1, v2, v3, v4] := by
    rw [set_channel_values_five, set_channel_values_five, hid v0, hid v1,
      hid v2, hid v3, hid v4]
  have hmsg : s.buildMsg (clampChannel v0) (clampChannel v1) (clampChannel v2)
      (clampChannel v3) (clampChannel v4) = s.buildMsg v0 v1 v2 v3 v4 := by
    rw [buildMsg_def, buildMsg_def, hvals]
    simp only [hz]
  refine ⟨?_, ?_⟩
  · show (runOps s (msgOps (s.buildMsg v0 v1 v2 v3 v4)),
        s.buildMsg v0 v1 v2 v3 v4) = _
    rw [show s.write (clampChannel v0) (clampChannel v1) (clampChannel v2)
        (clampChannel v3) (clampChannel v4) =
      (runOps s (msgOps (s.buildMsg (clampChannel v0) (clampChannel v1)
        (clampChannel v2) (clampChannel v3) (clampChannel v4))),
        s.buildMsg (clampChannel v0) (clampChannel v1) (clampChannel v2)
          (clampChannel v3) (clampChannel v4)) from rfl, hmsg]
  · intro v hv
    rw [clampChannel_eq]
    omega

/-- Witness for `write_clamps`: inputs 2000 and 1024 give the same
result as 1023, on a concrete driver. -/
theorem write_clamps_witness :
    Sm2335Egh.init.write 2000 0 0 0 0 = Sm2335Egh.init.write 1023 0 0 0 0 ∧
    Sm2335Egh.init.write 1024 0 0 0 0 = Sm2335Egh.init.write 1023 0 0 0 0 ∧
    clampChannel 2000 = 1023 ∧ clampChannel 1024 = 1023 := by
  refine ⟨((write_clamps Sm2335Egh.init 2000 0 0 0 0).1).trans (by decide),
    ((write_clamps Sm2335Egh.init 1024 0 0 0 0).1).trans (by decide),
    (write_clamps Sm2335Egh.init 2000 0 0 0 0).2 2000 (by norm_num),
    (write_clamps Sm2335Egh.init 1024 0 0 0 0).2 1024 (by norm_num)⟩

/-! ### C5: write_normalized agrees with write on floor(x * 1024) -/

lemma shift_pow_q : (((1 <<< BIT_DEPTH : Nat)) : ℚ) = 1024 := by
  rw [show (1 <<< BIT_DEPTH : Nat) = 1024 from rfl]
  push_cast
  rfl

/-- For inputs in `[0, 1)` the scaling of `write_normalized` is exactly
the floor of `x * 1024`. -/
lemma scaleChannel_of_unit (x : ℚ) (hx : 0 ≤ x) (hx1 : x < 1) :
    scaleChannel x = Int.toNat ⌊x * 1024⌋ := by
  rw [scaleChannel, if_neg (not_lt.mpr hx), shift_pow_q]
  have hfl : ⌊x * 1024⌋ < 1024 := by
    apply Int.floor_lt.mpr
    push_cast
    linarith
  omega

/-- C5: for channel values in `[0, 1)`, `write_normalized` produces
exactly the result of `write` on `floor(x * 1024)` per channel — the
same frame, the same pin-level effect, hence the same pulse sequence. -/
theorem write_normalized_floor (s : Sm2335Egh) (x0 x1 x2 x3 x4 : ℚ)
    (ha0 : 0 ≤ x0) (hb0 : x0 < 1) (ha1 : 0 ≤ x1) (hb1 : x1 < 1)
    (ha2 : 0 ≤ x2) (hb2 : x2 < 1) (ha3 : 0 ≤ x3) (hb3 : x3 < 1)
    (ha4 : 0 ≤ x4) (hb4 : x4 < 1) :
    s.write_normalized x0 x1 x2 x3 x4 =
      s.write (Int.toNat ⌊x0 * 1024⌋) (Int.toNat ⌊x1 * 1024⌋)
        (Int.toNat ⌊x2 * 1024⌋) (Int.toNat ⌊x3 * 1024⌋)
        (Int.toNat ⌊x4 * 1024⌋) := by
  rw [Sm2335Egh.write_normalized, scaleChannel_of_unit x0 ha0 hb0,
    scaleChannel_of_unit x1 ha1 hb1, scaleChannel_of_unit x2 ha2 hb2,
    scaleChannel_of_unit x3 ha3 hb3, scaleChannel_of_unit x4 ha4 hb4]

/-- Witness for `write_normalized_floor` at `x = 1/2`. -/
theorem write_normalized_floor_witness :
    Sm2335Egh.init.write_normalized (1 / 2) 0 0 0 0 =
      Sm2335Egh.init.write (Int.toNat ⌊(1 / 2 : ℚ) * 1024⌋)
        (Int.toNat ⌊(0 : ℚ) * 1024⌋) (Int.toNat ⌊(0 : ℚ) * 1024⌋)
        (Int.toNat ⌊(0 : ℚ) * 1024⌋) (Int.toNat ⌊(0 : ℚ) * 1024⌋) :=
  write_normalized_floor Sm2335Egh.init (1 / 2) 0 0 0 0 (by norm_num)
    (by norm_num) (by norm_num) (by norm_num) (by norm_num) (by norm_num)
    (by norm_num) (by norm_num) (by norm_num) (by norm_num)

/-! ### C6: out-of-range normalized inputs -/

/-- Counterexample to C6 as stated: the input `-1/2` lies outside
`[0, 1)` and its scaled value `-512` lies outside `[0, 1024)`, but the
resulting channel value is 0 — the saturating cast sends negative values
to 0, not to the maximum 1023. -/
theorem scale_saturates_cex :
    ((- (1 / 2) : ℚ) < 0 ∨ (1 : ℚ) ≤ - (1 / 2)) ∧
    ((- (1 / 2) : ℚ) * 1024 < 0 ∨ (1024 : ℚ) ≤ - (1 / 2) * 1024) ∧
    scaleChannel (- (1 / 2)) = 0 ∧
    clampChannel (scaleChannel (- (1 / 2))) ≠ 1023 := by
  have h0 : scaleChannel (- (1 / 2)) = 0 := by
    rw [scaleChannel, if_pos (by norm_num)]
  refine ⟨Or.inl (by norm_num), Or.inl (by norm_num), h0, ?_⟩
  rw [h0]
  decide

/-- C6 amended: a normalized input at or above 1 scales to at least 1024
and the encoder clamps the channel value to 1023; a negative input is
saturated to 0 by the float-to-integer cast instead. -/
theorem scale_saturates (x : ℚ) :
    (1 ≤ x → 1024 ≤ scaleChannel x ∧ clampChannel (scaleChannel x) = 1023) ∧
    (x < 0 → scaleChannel x = 0) := by
  constructor
  · intro hx
    rw [scaleChannel, if_neg (by linarith), shift_pow_q, clampChannel_eq]
    have hfl : (1024 : ℤ) ≤ ⌊x * 1024⌋ := by
      apply Int.le_floor.mpr
      push_cast
      linarith
    omega
  · intro hx
    rw [scaleChannel, if_pos hx]

/-- Witness for `scale_saturates` at `x = 2` and `x = -1`. -/
theorem scale_saturates_witness :
    (1024 ≤ scaleChannel 2 ∧ clampChannel (scaleChannel 2) = 1023) ∧
    scaleChannel (-1) = 0 :=
  ⟨(scale_saturates 2).1 (by norm_num), (scale_saturates (-1)).2 (by norm_num)⟩

/-! ### C7: power levels are stored masked to 4 bits -/

/-- C7: the stored power levels are 4-bit after construction and after
every `set_power_levels` call: `init` stores 0x2 and 0x4,
`set_power_levels rgb cw` stores `rgb &&& 0xF` and `cw &&& 0xF` (both at
most 0xF) without any error path, and in particular
`set_power_levels 0x1F 0x2C` stores 0xF and 0xC. -/
theorem power_levels_masked (s : Sm2335Egh) (rgb cw : Nat) :
    Sm2335Egh.init.rgb_power_level = 0x2 ∧
    Sm2335Egh.init.cw_power_level = 0x4 ∧
    Sm2335Egh.init.rgb_power_level ≤ 0xF ∧
    Sm2335Egh.init.cw_power_level ≤ 0xF ∧
    (s.set_power_levels rgb cw).rgb_power_level = rgb &&& 0xF ∧
    (s.set_power_levels rgb cw).cw_power_level = cw &&& 0xF ∧
    (s.set_power_levels rgb cw).rgb_power_level ≤ 0xF ∧
    (s.set_power_levels rgb cw).cw_power_level ≤ 0xF ∧
    (s.set_power_levels 0x1F 0x2C).rgb_power_level = 0xF ∧
    (s.set_power_levels 0x1F 0x2C).cw_power_level = 0xC := by
  refine ⟨rfl, rfl, by decide, by decide, rfl, rfl, ?_, ?_, rfl, rfl⟩
  · exact Nat.and_le_right
  · exact Nat.and_le_right

/-! ### C8: the spec's example frame -/

/-- C8: on a freshly constructed driver, `write [1023, 0, 800, 0, 0]`
builds exactly the 12-byte frame of the spec's example. -/
theorem write_example_frame :
    (Sm2335Egh.init.write 1023 0 800 0 0).2.bytes =
      [0b11001000, 0x20, 0x03, 0xFF, 0x00, 0x00, 0x03, 0x20, 0x00, 0x00,
        0x00, 0x00] := by
  decide

/-! ### C9: both lines idle high around every public operation -/

/-- C9: the idle convention holds after every public operation:
construction leaves both lines high, applying the pin operations of
`init` from any line state leaves both lines high, every `write` ends
with both lines high, and `set_power_levels` performs no pin operation
at all — it leaves both line levels untouched. -/
theorem idle_lines_invariant (s : Sm2335Egh) (rgb cw v0 v1 v2 v3 v4 : Nat) :
    Sm2335Egh.init.data = true ∧ Sm2335Egh.init.clk = true ∧
    (runOps s initOps).data = true ∧ (runOps s initOps).clk = true ∧
    (s.write v0 v1 v2 v3 v4).1.data = true ∧
    (s.write v0 v1 v2 v3 v4).1.clk = true ∧
    (s.set_power_levels rgb cw).data = s.data ∧
    (s.set_power_levels rgb cw).clk = s.clk := by
  have hw : (s.write v0 v1 v2 v3 v4).1 =
      runOps s (msgOps (s.buildMsg v0 v1 v2 v3 v4)) := rfl
  refine ⟨rfl, rfl, rfl, rfl, ?_, ?_, rfl, rfl⟩
  · rw [hw]
    exact (runOps_msgOps_high s _).1
  · rw [hw]
    exact (runOps_msgOps_high s _).2

/-! ### C10: write and write_normalized do not touch the power levels -/

/-- Any trace of pin operations changes only the two line levels, never
the stored power levels. -/
lemma runOps_power_levels (ops : List PinOp) :
    ∀ s : Sm2335Egh, (runOps s ops).rgb_power_level = s.rgb_power_level ∧
      (runOps s ops).cw_power_level = s.cw_power_level := by
  induction ops with
  | nil => exact fun s => ⟨rfl, rfl⟩
  | cons op l ih =>
    intro s
    have hstep : runOps s (op :: l) = runOps (applyOp s op) l := rfl
    rw [hstep]
    rcases ih (applyOp s op) with ⟨h1, h2⟩
    rw [h1, h2]
    cases op <;> exact ⟨rfl, rfl⟩

/-- C10: `write` and `write_normalized` leave the stored power levels
unchanged; the driver state they return is exactly the input state with
the pin-operation trace applied to the two line levels. -/
theorem write_preserves_power_levels (s : Sm2335Egh) (v0 v1 v2 v3 v4 : Nat)
    (x0 x1 x2 x3 x4 : ℚ) :
    (s.write v0 v1 v2 v3 v4).1.rgb_power_level = s.rgb_power_level ∧
    (s.write v0 v1 v2 v3 v4).1.cw_power_level = s.cw_power_level ∧
    (s.write_normalized x0 x1 x2 x3 x4).1.rgb_power_level =
      s.rgb_power_level ∧
    (s.write_normalized x0 x1 x2 x3 x4).1.cw_power_level =
      s.cw_power_level ∧
    (s.write v0 v1 v2 v3 v4).1 =
      runOps s (msgOps (s.buildMsg v0 v1 v2 v3 v4)) := by
  refine ⟨(runOps_power_levels _ s).1, (runOps_power_levels _ s).2,
    (runOps_power_levels _ s).1, (runOps_power_levels _ s).2, rfl⟩

end SM2335
